import Mathlib

/-!
# Verification of `enumerate.py` (Vertex model availability by region)

Shallow embedding of the core of `src/enumerate.py`:

* `check_model_availability` — the per-model "ping test" (lines 78-100),
  folding every probe outcome into a boolean;
* `fetch_models` — discovery against the master catalog, the
  `us-central1` fast path, and the availability filter (lines 102-174);
* `get_project_id` and the region resolution of `main` (lines 51-76, 191);
* a small-step model `PoolStep` of the `ThreadPoolExecutor` loop
  (lines 151-174): tasks are submitted, run under a worker cap, and their
  results are aggregated in completion order.

Network effects are modelled by oracles: `list_publisher_models` is a
function from the parent resource name to either a `DiscoveryError` or the
materialized model list; `get_publisher_model` is a function from a model
resource name to either `()` (HTTP success) or a `ProbeError` (the
exception raised by the transport).  `sys.exit(n)` is modelled as
`Except.error n`.
-/

/-- A catalog entry as used by the script: only its resource name matters
(`model.name`, e.g. `"publishers/google/models/gemini-pro"`). -/
structure PublisherModel where
  name : String
deriving DecidableEq, Repr

/-- The distinguishable failure modes of a single `get_publisher_model`
call: the `exceptions.NotFound` branch of the source, and the failures the
source's bare `except Exception` catches (permission, server error,
timeout, malformed response). -/
inductive ProbeError where
  | notFound
  | permissionDenied
  | serverError
  | timeout
  | malformedResponse
deriving DecidableEq, Repr

/-- A failure of the master-catalog listing call (`except Exception as e`
in the discovery phase); the message of the caught exception. -/
structure DiscoveryError where
  message : String
deriving DecidableEq, Repr

/-- Embeds `check_model_availability` (enumerate.py lines 78-100): call
`get_publisher_model` on the model name; success gives `true`,
`exceptions.NotFound` gives `false`, and any other exception also gives
`false`. -/
def check_model_availability (get_publisher_model : String → Except ProbeError Unit)
    (model_name : String) : Bool :=
  match get_publisher_model model_name with
  | Except.ok _ => true
  | Except.error ProbeError.notFound => false
  | Except.error _ => false

/-- Result of `fetch_models`, instrumented with the network calls issued:
`result` is the returned list (or the discovery failure that made the
source call `sys.exit(1)`), `discoveryCalls` the parents passed to
`list_publisher_models`, and `probeCalls` the model names passed to
`get_publisher_model`. -/
structure FetchOutcome where
  result : Except DiscoveryError (List PublisherModel)
  discoveryCalls : List String
  probeCalls : List String
deriving Repr

/-- Embeds `fetch_models` (enumerate.py lines 102-174) as a function of the
two network oracles.  Discovery lists `publishers/<publisher>`; on failure
the source exits (modelled as the error result, with no probes issued).
If the region is `us-central1` the discovery list is returned unchanged
with no probes.  Otherwise every model is probed through
`check_model_availability` and the available ones are kept.  The
thread-pool appends results in completion order; this sequential embedding
keeps discovery order, and `PoolStep` below shows every completion order
yields the same list up to permutation. -/
def fetch_models (list_publisher_models : String → Except DiscoveryError (List PublisherModel))
    (get_publisher_model : String → Except ProbeError Unit)
    (project_id : String) (region : String) (publisher : String := "google") : FetchOutcome :=
  let parent := "publishers/" ++ publisher
  match list_publisher_models parent with
  | Except.error e => { result := Except.error e, discoveryCalls := [parent], probeCalls := [] }
  | Except.ok all_models =>
    if region = "us-central1" then
      { result := Except.ok all_models, discoveryCalls := [parent], probeCalls := [] }
    else
      { result := Except.ok (all_models.filter fun m =>
          check_model_availability get_publisher_model m.name),
        discoveryCalls := [parent],
        probeCalls := all_models.map (fun m => m.name) }

/-- Embeds `get_project_id` (enumerate.py lines 51-76) with Python
truthiness: a present, non-empty `--project` wins; otherwise a present,
non-empty `GOOGLE_CLOUD_PROJECT`; otherwise `sys.exit(1)` (modelled as
`Except.error 1`). -/
def get_project_id (arg_project : Option String) (env_project : Option String) :
    Except Nat String :=
  match arg_project with
  | some s =>
    if s = "" then
      match env_project with
      | some e => if e = "" then Except.error 1 else Except.ok e
      | none => Except.error 1
    else Except.ok s
  | none =>
    match env_project with
    | some e => if e = "" then Except.error 1 else Except.ok e
    | none => Except.error 1

/-- Embeds line 191 of enumerate.py,
`region = args.region or os.getenv("REGION") or "us-central1"`, with
Python truthiness (`None` and `""` are falsy). -/
def resolve_region (arg_region : Option String) (env_region : Option String) : String :=
  match arg_region with
  | some s =>
    if s = "" then
      match env_region with
      | some e => if e = "" then "us-central1" else e
      | none => "us-central1"
    else s
  | none =>
    match env_region with
    | some e => if e = "" then "us-central1" else e
    | none => "us-central1"

/-- Observable outcome of one run of `main` (enumerate.py lines 176-205):
the exit code when the process halted early (`sys.exit`), the stdout
lines, and the network calls issued. -/
structure RunOutcome where
  exitCode : Option Nat
  output : List String
  discoveryCalls : List String
  probeCalls : List String
deriving Repr

/-- Embeds `main` (enumerate.py lines 176-205): resolve the project id
(halting on failure before any network call), resolve the region, run
`fetch_models`, and print the policy header and one
`- <name>:predict` line per model when the result is non-empty. -/
def run_main (arg_project arg_region : Option String) (arg_publisher : String)
    (env_project env_region : Option String)
    (list_publisher_models : String → Except DiscoveryError (List PublisherModel))
    (get_publisher_model : String → Except ProbeError Unit) : RunOutcome :=
  match get_project_id arg_project env_project with
  | Except.error code => { exitCode := some code, output := [], discoveryCalls := [], probeCalls := [] }
  | Except.ok project_id =>
    let region := resolve_region arg_region env_region
    let fo := fetch_models list_publisher_models get_publisher_model project_id region arg_publisher
    match fo.result with
    | Except.error _ =>
      { exitCode := some 1, output := [], discoveryCalls := fo.discoveryCalls,
        probeCalls := fo.probeCalls }
    | Except.ok models =>
      { exitCode := none,
        output :=
          if models = [] then []
          else ("# Models available in " ++ region ++ " for publisher '" ++ arg_publisher ++ "'")
            :: models.map (fun m => "- " ++ m.name ++ ":predict"),
        discoveryCalls := fo.discoveryCalls,
        probeCalls := fo.probeCalls }

/-- The worker cap of the `ThreadPoolExecutor` (enumerate.py line 151). -/
def max_workers : Nat := 50

/-- State of the thread-pool loop of `fetch_models` (lines 151-174):
models whose check has not started, models whose check is in flight on a
worker, the completed futures with their boolean results, and the
`available_models` list built by the `as_completed` loop. -/
structure PoolState where
  pending : List PublisherModel
  inflight : List PublisherModel
  completed : List (PublisherModel × Bool)
  available_models : List PublisherModel
deriving DecidableEq, Repr

/-- One scheduler step of the thread pool: either a worker picks up a
pending check (only when fewer than `cap` are in flight), or an in-flight
check finishes with the boolean computed by `check_model_availability`,
upon which the `as_completed` loop appends the model to
`available_models` exactly when the result is `true`. -/
inductive PoolStep (cap : Nat) (get_publisher_model : String → Except ProbeError Unit) :
    PoolState → PoolState → Prop where
  | start {s : PoolState} {m : PublisherModel}
      (hm : m ∈ s.pending) (hcap : s.inflight.length < cap) :
      PoolStep cap get_publisher_model s
        { pending := s.pending.erase m, inflight := m :: s.inflight,
          completed := s.completed, available_models := s.available_models }
  | finish {s : PoolState} {m : PublisherModel} (hm : m ∈ s.inflight) :
      PoolStep cap get_publisher_model s
        { pending := s.pending, inflight := s.inflight.erase m,
          completed := (m, check_model_availability get_publisher_model m.name) :: s.completed,
          available_models :=
            if check_model_availability get_publisher_model m.name
            then s.available_models ++ [m] else s.available_models }

/-- The pool state right after all checks are submitted and none has run. -/
def initState (all_models : List PublisherModel) : PoolState :=
  { pending := all_models, inflight := [], completed := [], available_models := [] }

/-- A pool state the loop can be in, for some interleaving of workers. -/
def Reachable (cap : Nat) (get_publisher_model : String → Except ProbeError Unit)
    (all_models : List PublisherModel) (s : PoolState) : Prop :=
  Relation.ReflTransGen (PoolStep cap get_publisher_model) (initState all_models) s

/-- The `with` block (and the `as_completed` loop) can only be left in a
state where no check is pending or in flight; `fetch_models` returns
exactly at such states. -/
def Terminal (s : PoolState) : Prop :=
  s.pending = [] ∧ s.inflight = []

/-- Loop invariant of the thread pool: every model is accounted for in
exactly one of pending / in-flight / completed; every completed future
carries the boolean `check_model_availability` computed for its model;
`available_models` holds exactly the completed models whose check was
`true` (in completion order, hence up to permutation); and never more
than `cap` checks are in flight. -/
def PoolInv (cap : Nat) (get_publisher_model : String → Except ProbeError Unit)
    (all_models : List PublisherModel) (s : PoolState) : Prop :=
  (s.pending ++ s.inflight ++ s.completed.map Prod.fst).Perm all_models
  ∧ (∀ p ∈ s.completed, p.2 = check_model_availability get_publisher_model p.1.name)
  ∧ s.available_models.Perm ((s.completed.filter fun p => p.2).map Prod.fst)
  ∧ s.inflight.length ≤ cap

lemma poolInv_init (cap : Nat) (get_publisher_model : String → Except ProbeError Unit)
    (all_models : List PublisherModel) :
    PoolInv cap get_publisher_model all_models (initState all_models) := by
  refine ⟨?_, ?_, ?_, ?_⟩ <;> simp [initState]

lemma poolInv_step {cap : Nat} {get_publisher_model : String → Except ProbeError Unit}
    {all_models : List PublisherModel} {s s' : PoolState}
    (hinv : PoolInv cap get_publisher_model all_models s)
    (hstep : PoolStep cap get_publisher_model s s') :
    PoolInv cap get_publisher_model all_models s' := by
  obtain ⟨hperm, hcomp, havail, hlen⟩ := hinv
  cases hstep with
  | @start m hm hcap =>
    refine ⟨?_, hcomp, havail, ?_⟩
    · have h1 : List.Perm s.pending (m :: s.pending.erase m) := List.perm_cons_erase hm
      refine (List.Perm.append_right _ List.perm_middle).trans ?_
      exact ((h1.symm.append_right _).append_right _).trans hperm
    · exact hcap
  | @finish m hm =>
    have h1 : List.Perm s.inflight (m :: s.inflight.erase m) := List.perm_cons_erase hm
    refine ⟨?_, ?_, ?_, ?_⟩
    · refine List.Perm.trans List.perm_middle ?_
      refine List.Perm.trans (List.Perm.append_right _ List.perm_middle.symm) ?_
      exact ((h1.symm.append_left s.pending).append_right _).trans hperm
    · intro p hp
      rcases List.mem_cons.mp hp with h | h
      · subst h; rfl
      · exact hcomp p h
    · cases hb : check_model_availability get_publisher_model m.name with
      | false =>
        simp only [hb, if_neg Bool.false_ne_true, List.filter_cons]
        simpa using havail
      | true =>
        simp only [hb, if_pos rfl, List.filter_cons]
        simpa using (List.perm_append_singleton m _).trans (havail.cons m)
    · exact le_trans (List.Sublist.length_le (List.erase_sublist m s.inflight)) hlen

lemma poolInv_reachable {cap : Nat} {get_publisher_model : String → Except ProbeError Unit}
    {all_models : List PublisherModel} {s : PoolState}
    (h : Reachable cap get_publisher_model all_models s) :
    PoolInv cap get_publisher_model all_models s := by
  induction h with
  | refl => exact poolInv_init cap get_publisher_model all_models
  | tail _ hstep ih => exact poolInv_step ih hstep

lemma map_fst_filter_snd (q : PublisherModel → Bool) (l : List (PublisherModel × Bool)) :
    (l.filter fun p => q p.1).map Prod.fst = (l.map Prod.fst).filter q := by
  induction l with
  | nil => rfl
  | cons p rest ih => cases hq : q p.1 <;> simp [List.filter_cons, hq, ih]

/-- In any state the loop can legally stop in, the recorded futures cover
the discovery list exactly (up to completion order). -/
lemma terminal_completed_perm {cap : Nat}
    {get_publisher_model : String → Except ProbeError Unit}
    {all_models : List PublisherModel} {s : PoolState}
    (h : Reachable cap get_publisher_model all_models s) (ht : Terminal s) :
    List.Perm (s.completed.map Prod.fst) all_models := by
  obtain ⟨hperm, -, -, -⟩ := poolInv_reachable h
  obtain ⟨hp, hi⟩ := ht
  simpa [hp, hi] using hperm

/-- In any state the loop can legally stop in, `available_models` is,
up to completion order, the discovery list filtered by the check. -/
lemma terminal_available_perm {cap : Nat}
    {get_publisher_model : String → Except ProbeError Unit}
    {all_models : List PublisherModel} {s : PoolState}
    (h : Reachable cap get_publisher_model all_models s) (ht : Terminal s) :
    List.Perm s.available_models
      (all_models.filter fun m => check_model_availability get_publisher_model m.name) := by
  obtain ⟨hperm, hcomp, havail, -⟩ := poolInv_reachable h
  obtain ⟨hp, hi⟩ := ht
  have hfst : List.Perm (s.completed.map Prod.fst) all_models := by simpa [hp, hi] using hperm
  have hfe : (s.completed.filter fun p => p.2)
      = s.completed.filter fun p => check_model_availability get_publisher_model p.1.name :=
    List.filter_congr fun p hmem => by rw [hcomp p hmem]
  refine havail.trans ?_
  rw [hfe, map_fst_filter_snd (fun m => check_model_availability get_publisher_model m.name)
    s.completed]
  exact hfst.filter _

/-- A sequential schedule: repeatedly start one check and let it finish.
It drains any pending list under any worker cap of at least one. -/
lemma seq_steps (cap : Nat) (get_publisher_model : String → Except ProbeError Unit)
    (hcap : 1 ≤ cap) :
    ∀ (l : List PublisherModel) (c : List (PublisherModel × Bool)) (r : List PublisherModel),
      Relation.ReflTransGen (PoolStep cap get_publisher_model)
        { pending := l, inflight := [], completed := c, available_models := r }
        { pending := [], inflight := [],
          completed :=
            (l.map fun m => (m, check_model_availability get_publisher_model m.name)).reverse ++ c,
          available_models :=
            r ++ l.filter fun m => check_model_availability get_publisher_model m.name } := by
  intro l
  induction l with
  | nil => intro c r; simpa using Relation.ReflTransGen.refl
  | cons m rest ih =>
    intro c r
    have h1 : PoolStep cap get_publisher_model
        { pending := m :: rest, inflight := [], completed := c, available_models := r }
        { pending := rest, inflight := [m], completed := c, available_models := r } := by
      have hs := @PoolStep.start cap get_publisher_model
        { pending := m :: rest, inflight := [], completed := c, available_models := r }
        m (List.mem_cons_self m rest) (by simpa using hcap)
      simpa [List.erase_cons_head] using hs
    have h2 : PoolStep cap get_publisher_model
        { pending := rest, inflight := [m], completed := c, available_models := r }
        { pending := rest, inflight := [],
          completed := (m, check_model_availability get_publisher_model m.name) :: c,
          available_models :=
            if check_model_availability get_publisher_model m.name then r ++ [m] else r } := by
      have hf := @PoolStep.finish cap get_publisher_model
        { pending := rest, inflight := [m], completed := c, available_models := r }
        m (List.mem_cons_self m [])
      simpa [List.erase_cons_head] using hf
    refine Relation.ReflTransGen.head h1 (Relation.ReflTransGen.head h2 ?_)
    have h3 := ih ((m, check_model_availability get_publisher_model m.name) :: c)
      (if check_model_availability get_publisher_model m.name then r ++ [m] else r)
    have hco : ((m :: rest).map fun mm =>
          (mm, check_model_availability get_publisher_model mm.name)).reverse ++ c
        = (rest.map fun mm =>
            (mm, check_model_availability get_publisher_model mm.name)).reverse
          ++ ((m, check_model_availability get_publisher_model m.name) :: c) := by
      simp
    have hav : r ++ (m :: rest).filter (fun mm => check_model_availability get_publisher_model mm.name)
        = (if check_model_availability get_publisher_model m.name then r ++ [m] else r)
          ++ rest.filter fun mm => check_model_availability get_publisher_model mm.name := by
      cases hg : check_model_availability get_publisher_model m.name <;>
        simp [List.filter_cons, hg]
    rw [hco, hav]
    exact h3

/-- The final state of the sequential schedule. -/
def seqFinal (get_publisher_model : String → Except ProbeError Unit)
    (all_models : List PublisherModel) : PoolState :=
  { pending := [], inflight := [],
    completed :=
      (all_models.map fun m => (m, check_model_availability get_publisher_model m.name)).reverse,
    available_models :=
      all_models.filter fun m => check_model_availability get_publisher_model m.name }

lemma seqFinal_reachable {cap : Nat} (get_publisher_model : String → Except ProbeError Unit)
    (all_models : List PublisherModel) (hcap : 1 ≤ cap) :
    Reachable cap get_publisher_model all_models (seqFinal get_publisher_model all_models) := by
  have h := seq_steps cap get_publisher_model hcap all_models [] []
  simpa [Reachable, initState, seqFinal] using h

lemma seqFinal_terminal (get_publisher_model : String → Except ProbeError Unit)
    (all_models : List PublisherModel) :
    Terminal (seqFinal get_publisher_model all_models) := ⟨rfl, rfl⟩

/-- The check succeeds exactly when the regional fetch returns success. -/
lemma check_eq_true_iff (get_publisher_model : String → Except ProbeError Unit)
    (model_name : String) :
    check_model_availability get_publisher_model model_name = true
      ↔ get_publisher_model model_name = Except.ok () := by
  cases hr : get_publisher_model model_name with
  | ok u => cases u; simp [check_model_availability, hr]
  | error e => cases e <;> simp [check_model_availability, hr]

/-- Membership in the aggregated result, characterised by the probe oracle. -/
lemma terminal_mem_available {cap : Nat}
    {get_publisher_model : String → Except ProbeError Unit}
    {all_models : List PublisherModel} {s : PoolState}
    (h : Reachable cap get_publisher_model all_models s) (ht : Terminal s)
    (m : PublisherModel) :
    m ∈ s.available_models
      ↔ m ∈ all_models ∧ get_publisher_model m.name = Except.ok () := by
  rw [(terminal_available_perm h ht).mem_iff, List.mem_filter,
    check_eq_true_iff get_publisher_model m.name]

/-- The probe oracle of the spec scenario: `a` is found, `b` is not found,
`c` times out. -/
def scenario_probe : String → Except ProbeError Unit := fun model_name =>
  if model_name = "publishers/google/models/a" then Except.ok ()
  else if model_name = "publishers/google/models/b" then Except.error ProbeError.notFound
  else Except.error ProbeError.timeout

/-- The discovery list of the spec scenario. -/
def scenario_models : List PublisherModel :=
  [{ name := "publishers/google/models/a" },
   { name := "publishers/google/models/b" },
   { name := "publishers/google/models/c" }]

/-- A discovery oracle serving the scenario list for publisher `google`. -/
def scenario_discovery : String → Except DiscoveryError (List PublisherModel) := fun parent =>
  if parent = "publishers/google" then Except.ok scenario_models
  else Except.error { message := "unknown publisher" }

/-- A discovery oracle whose listing call always fails (simulated
transport error). -/
def failing_discovery : String → Except DiscoveryError (List PublisherModel) := fun _ =>
  Except.error { message := "transport error" }

/-- C1: Fail-closed filtering.  Any probe that does not complete as a
successful fetch (not-found, permission denied, server error, timeout,
malformed response) makes `check_model_availability` return `false`; a
model is in the aggregated result of the pool loop iff its probe outcome
is `true` (i.e. the regional fetch succeeded); and on the spec scenario
(`a` found, `b` not found, `c` timeout) `fetch_models` returns exactly
`[a]`. -/
theorem C1_fail_closed_filtering :
    (∀ (get_publisher_model : String → Except ProbeError Unit) (model_name : String)
        (e : ProbeError), get_publisher_model model_name = Except.error e →
        check_model_availability get_publisher_model model_name = false)
    ∧ (∀ (get_publisher_model : String → Except ProbeError Unit) (model_name : String),
        check_model_availability get_publisher_model model_name = true
          ↔ get_publisher_model model_name = Except.ok ())
    ∧ (∀ (cap : Nat) (get_publisher_model : String → Except ProbeError Unit)
        (all_models : List PublisherModel) (s : PoolState) (m : PublisherModel),
        Reachable cap get_publisher_model all_models s → Terminal s →
        (m ∈ s.available_models
          ↔ m ∈ all_models ∧ get_publisher_model m.name = Except.ok ()))
    ∧ (fetch_models scenario_discovery scenario_probe "proj" "europe-west4" "google").result
        = Except.ok [{ name := "publishers/google/models/a" }] := by
  refine ⟨?_, check_eq_true_iff, ?_, rfl⟩
  · intro get_publisher_model model_name e h
    cases e <;> simp [check_model_availability, h]
  · intro cap get_publisher_model all_models s m h ht
    exact terminal_mem_available h ht m

theorem C1_fail_closed_filtering_witness :
    check_model_availability scenario_probe "publishers/google/models/c" = false
    ∧ ({ name := "publishers/google/models/a" } : PublisherModel)
        ∈ (seqFinal scenario_probe scenario_models).available_models :=
  ⟨C1_fail_closed_filtering.1 scenario_probe "publishers/google/models/c"
      ProbeError.timeout rfl,
   (C1_fail_closed_filtering.2.2.1 1 scenario_probe scenario_models
      (seqFinal scenario_probe scenario_models) { name := "publishers/google/models/a" }
      (seqFinal_reachable scenario_probe scenario_models (by decide))
      (seqFinal_terminal scenario_probe scenario_models)).mpr ⟨by decide, rfl⟩⟩

/-- C2: Subset property.  Whatever the completion order, the aggregated
`available_models` of the pool loop is a sub-permutation of the discovery
list: every member comes from the discovery list and no identifier occurs
more often than it does there.  The same holds for any list `fetch_models`
returns. -/
theorem C2_subset_property :
    (∀ (cap : Nat) (get_publisher_model : String → Except ProbeError Unit)
        (all_models : List PublisherModel) (s : PoolState),
        Reachable cap get_publisher_model all_models s → Terminal s →
        s.available_models.Subperm all_models
        ∧ (∀ m ∈ s.available_models, m ∈ all_models)
        ∧ ∀ m : PublisherModel, s.available_models.count m ≤ all_models.count m)
    ∧ (∀ (list_publisher_models : String → Except DiscoveryError (List PublisherModel))
        (get_publisher_model : String → Except ProbeError Unit)
        (project_id region publisher : String)
        (all_models returned : List PublisherModel),
        list_publisher_models ("publishers/" ++ publisher) = Except.ok all_models →
        (fetch_models list_publisher_models get_publisher_model project_id region
          publisher).result = Except.ok returned →
        returned.Subperm all_models) := by
  constructor
  · intro cap get_publisher_model all_models s h ht
    have hsub : s.available_models.Subperm all_models :=
      ((terminal_available_perm h ht).subperm).trans (List.filter_sublist _).subperm
    exact ⟨hsub, fun m hm => hsub.subset hm, fun m => hsub.count_le m⟩
  · intro list_publisher_models get_publisher_model project_id region publisher
      all_models returned hlist hres
    by_cases hr : region = "us-central1"
    · simp only [fetch_models, hlist, hr, if_pos rfl] at hres
      cases hres
      exact List.Subperm.refl _
    · simp only [fetch_models, hlist, if_neg hr] at hres
      cases hres
      exact (List.filter_sublist _).subperm

theorem C2_subset_property_witness :
    (seqFinal scenario_probe scenario_models).available_models.Subperm scenario_models :=
  (C2_subset_property.1 1 scenario_probe scenario_models
    (seqFinal scenario_probe scenario_models)
    (seqFinal_reachable scenario_probe scenario_models (by decide))
    (seqFinal_terminal scenario_probe scenario_models)).1

/-- C3: Fast-path identity.  When the target region is the master region
`us-central1`, `fetch_models` returns the discovery list unchanged and
issues zero `get_publisher_model` probes. -/
theorem C3_fast_path_identity :
    ∀ (list_publisher_models : String → Except DiscoveryError (List PublisherModel))
      (get_publisher_model : String → Except ProbeError Unit)
      (project_id publisher : String) (all_models : List PublisherModel),
      list_publisher_models ("publishers/" ++ publisher) = Except.ok all_models →
      fetch_models list_publisher_models get_publisher_model project_id "us-central1" publisher
        = { result := Except.ok all_models,
            discoveryCalls := ["publishers/" ++ publisher], probeCalls := [] } := by
  intro list_publisher_models get_publisher_model project_id publisher all_models hlist
  simp [fetch_models, hlist]

theorem C3_fast_path_identity_witness :
    fetch_models scenario_discovery scenario_probe "proj" "us-central1" "google"
      = { result := Except.ok scenario_models,
          discoveryCalls := ["publishers/google"], probeCalls := [] } :=
  C3_fast_path_identity scenario_discovery scenario_probe "proj" "google" scenario_models rfl

/-- C4: Discovery failure is fatal.  If the master-catalog listing fails,
`fetch_models` surfaces the discovery error with zero probes issued, and a
whole run halts with exit code 1 (the source's `sys.exit(1)`) producing no
stdout output. -/
theorem C4_discovery_failure_fatal :
    (∀ (list_publisher_models : String → Except DiscoveryError (List PublisherModel))
        (get_publisher_model : String → Except ProbeError Unit)
        (project_id region publisher : String) (e : DiscoveryError),
        list_publisher_models ("publishers/" ++ publisher) = Except.error e →
        fetch_models list_publisher_models get_publisher_model project_id region publisher
          = { result := Except.error e,
              discoveryCalls := ["publishers/" ++ publisher], probeCalls := [] })
    ∧ (∀ (arg_project arg_region : Option String) (arg_publisher : String)
        (env_project env_region : Option String) (project_id : String)
        (list_publisher_models : String → Except DiscoveryError (List PublisherModel))
        (get_publisher_model : String → Except ProbeError Unit) (e : DiscoveryError),
        get_project_id arg_project env_project = Except.ok project_id →
        list_publisher_models ("publishers/" ++ arg_publisher) = Except.error e →
        run_main arg_project arg_region arg_publisher env_project env_region
          list_publisher_models get_publisher_model
          = { exitCode := some 1, output := [],
              discoveryCalls := ["publishers/" ++ arg_publisher], probeCalls := [] }) := by
  constructor
  · intro list_publisher_models get_publisher_model project_id region publisher e hlist
    simp [fetch_models, hlist]
  · intro arg_project arg_region arg_publisher env_project env_region project_id
      list_publisher_models get_publisher_model e hproj hlist
    simp [run_main, hproj, fetch_models, hlist]

theorem C4_discovery_failure_fatal_witness :
    run_main (some "proj") (some "europe-west4") "google" none none
        failing_discovery scenario_probe
      = { exitCode := some 1, output := [],
          discoveryCalls := ["publishers/google"], probeCalls := [] } :=
  C4_discovery_failure_fatal.2 (some "proj") (some "europe-west4") "google" none none
    "proj" failing_discovery scenario_probe { message := "transport error" } rfl rfl

/-- C5: Completeness barrier.  The pool loop can only stop in states with
nothing pending and nothing in flight, and there every discovered model
has a recorded terminal outcome — exactly one future per submitted model,
none abandoned — so the aggregated result covers every submitted probe. -/
theorem C5_completeness_barrier :
    ∀ (cap : Nat) (get_publisher_model : String → Except ProbeError Unit)
      (all_models : List PublisherModel) (s : PoolState),
      Reachable cap get_publisher_model all_models s → Terminal s →
      s.pending = [] ∧ s.inflight = []
      ∧ (∀ m ∈ all_models,
          (m, check_model_availability get_publisher_model m.name) ∈ s.completed)
      ∧ s.completed.length = all_models.length
      ∧ List.Perm s.available_models
          (all_models.filter fun m => check_model_availability get_publisher_model m.name) := by
  intro cap get_publisher_model all_models s h ht
  have hfst := terminal_completed_perm h ht
  obtain ⟨-, hcomp, -, -⟩ := poolInv_reachable h
  refine ⟨ht.1, ht.2, ?_, ?_, terminal_available_perm h ht⟩
  · intro m hm
    have hmem : m ∈ s.completed.map Prod.fst := hfst.mem_iff.mpr hm
    obtain ⟨p, hp, hpe⟩ := List.mem_map.mp hmem
    have hsnd := hcomp p hp
    have hp2 : p.2 = check_model_availability get_publisher_model m.name := by
      rw [hsnd, hpe]
    have hpq : p = (m, check_model_availability get_publisher_model m.name) :=
      Prod.ext hpe hp2
    exact hpq ▸ hp
  · have := hfst.length_eq
    simpa using this

theorem C5_completeness_barrier_witness :
    (({ name := "publishers/google/models/c" } : PublisherModel),
        check_model_availability scenario_probe "publishers/google/models/c")
      ∈ (seqFinal scenario_probe scenario_models).completed :=
  (C5_completeness_barrier 1 scenario_probe scenario_models
      (seqFinal scenario_probe scenario_models)
      (seqFinal_reachable scenario_probe scenario_models (by decide))
      (seqFinal_terminal scenario_probe scenario_models)).2.2.1
    { name := "publishers/google/models/c" } (by decide)

/-- C6: Determinism under a deterministic probe oracle.  Any two complete
pool runs over the same discovery list and oracle — whatever their worker
caps and completion orders — aggregate the same result set (the lists are
permutations of each other, so membership coincides). -/
theorem C6_determinism :
    ∀ (cap₁ cap₂ : Nat) (get_publisher_model : String → Except ProbeError Unit)
      (all_models : List PublisherModel) (s₁ s₂ : PoolState),
      Reachable cap₁ get_publisher_model all_models s₁ → Terminal s₁ →
      Reachable cap₂ get_publisher_model all_models s₂ → Terminal s₂ →
      List.Perm s₁.available_models s₂.available_models
      ∧ ∀ m : PublisherModel, m ∈ s₁.available_models ↔ m ∈ s₂.available_models := by
  intro cap₁ cap₂ get_publisher_model all_models s₁ s₂ h₁ ht₁ h₂ ht₂
  have hp : List.Perm s₁.available_models s₂.available_models :=
    (terminal_available_perm h₁ ht₁).trans (terminal_available_perm h₂ ht₂).symm
  exact ⟨hp, fun m => hp.mem_iff⟩

theorem C6_determinism_witness :
    List.Perm (seqFinal scenario_probe scenario_models).available_models
      (seqFinal scenario_probe scenario_models).available_models :=
  (C6_determinism 1 2 scenario_probe scenario_models
    (seqFinal scenario_probe scenario_models) (seqFinal scenario_probe scenario_models)
    (seqFinal_reachable scenario_probe scenario_models (by decide))
    (seqFinal_terminal scenario_probe scenario_models)
    (seqFinal_reachable scenario_probe scenario_models (by decide))
    (seqFinal_terminal scenario_probe scenario_models)).1

/-- C7: Per-probe failure containment.  `check_model_availability` folds
every probe outcome into a boolean; consequently, whenever discovery
succeeds, `fetch_models` returns an `ok` list for every probe oracle —
including oracles that fail on every model — and the pool loop can always
make progress from any non-final state (no probe failure wedges it). -/
theorem C7_probe_failure_containment :
    (∀ (get_publisher_model : String → Except ProbeError Unit) (model_name : String),
        check_model_availability get_publisher_model model_name = true
        ∨ check_model_availability get_publisher_model model_name = false)
    ∧ (∀ (list_publisher_models : String → Except DiscoveryError (List PublisherModel))
        (get_publisher_model : String → Except ProbeError Unit)
        (project_id region publisher : String) (all_models : List PublisherModel),
        list_publisher_models ("publishers/" ++ publisher) = Except.ok all_models →
        ∃ returned : List PublisherModel,
          (fetch_models list_publisher_models get_publisher_model project_id region
            publisher).result = Except.ok returned)
    ∧ (∀ (cap : Nat) (get_publisher_model : String → Except ProbeError Unit)
        (s : PoolState), 1 ≤ cap → ¬ Terminal s →
        ∃ t : PoolState, PoolStep cap get_publisher_model s t) := by
  refine ⟨fun get_publisher_model model_name => ?_, ?_, ?_⟩
  · cases check_model_availability get_publisher_model model_name
    · exact Or.inr rfl
    · exact Or.inl rfl
  · intro list_publisher_models get_publisher_model project_id region publisher
      all_models hlist
    by_cases hr : region = "us-central1"
    · exact ⟨all_models, by simp [fetch_models, hlist, hr]⟩
    · exact ⟨all_models.filter fun m =>
          check_model_availability get_publisher_model m.name,
        by simp [fetch_models, hlist, hr]⟩
  · intro cap get_publisher_model s hcap ht
    cases hi : s.inflight with
    | cons m rest =>
      exact ⟨_, PoolStep.finish (m := m) (by rw [hi]; exact List.mem_cons_self m rest)⟩
    | nil =>
      cases hp : s.pending with
      | nil => exact absurd ⟨hp, hi⟩ ht
      | cons m rest =>
        refine ⟨_, PoolStep.start (m := m) (by rw [hp]; exact List.mem_cons_self m rest) ?_⟩
        rw [hi]
        exact hcap

theorem C7_probe_failure_containment_witness :
    ∃ returned : List PublisherModel,
      (fetch_models scenario_discovery
        (fun _ => Except.error ProbeError.serverError) "proj" "europe-west4" "google").result
        = Except.ok returned :=
  C7_probe_failure_containment.2.1 scenario_discovery
    (fun _ => Except.error ProbeError.serverError) "proj" "europe-west4" "google"
    scenario_models rfl

/-- C8: Concurrency bound.  In every reachable pool state at most `cap`
checks are in flight — in particular at most the configured 50 workers —
and the aggregated result is the same (up to permutation) for every cap,
any complete run with cap ≥ 1 existing. -/
theorem C8_concurrency_bound :
    (∀ (cap : Nat) (get_publisher_model : String → Except ProbeError Unit)
        (all_models : List PublisherModel) (s : PoolState),
        Reachable cap get_publisher_model all_models s → s.inflight.length ≤ cap)
    ∧ (∀ (get_publisher_model : String → Except ProbeError Unit)
        (all_models : List PublisherModel) (s : PoolState),
        Reachable max_workers get_publisher_model all_models s → s.inflight.length ≤ 50)
    ∧ (∀ (cap₁ cap₂ : Nat) (get_publisher_model : String → Except ProbeError Unit)
        (all_models : List PublisherModel) (s₁ s₂ : PoolState),
        Reachable cap₁ get_publisher_model all_models s₁ → Terminal s₁ →
        Reachable cap₂ get_publisher_model all_models s₂ → Terminal s₂ →
        List.Perm s₁.available_models s₂.available_models)
    ∧ (∀ (cap : Nat) (get_publisher_model : String → Except ProbeError Unit)
        (all_models : List PublisherModel), 1 ≤ cap →
        ∃ s : PoolState, Reachable cap get_publisher_model all_models s ∧ Terminal s) := by
  have hbound : ∀ (cap : Nat) (get_publisher_model : String → Except ProbeError Unit)
      (all_models : List PublisherModel) (s : PoolState),
      Reachable cap get_publisher_model all_models s → s.inflight.length ≤ cap :=
    fun cap get_publisher_model all_models s h => (poolInv_reachable h).2.2.2
  refine ⟨hbound, fun get_publisher_model all_models s h => hbound _ _ _ _ h, ?_, ?_⟩
  · intro cap₁ cap₂ get_publisher_model all_models s₁ s₂ h₁ ht₁ h₂ ht₂
    exact (terminal_available_perm h₁ ht₁).trans (terminal_available_perm h₂ ht₂).symm
  · intro cap get_publisher_model all_models hcap
    exact ⟨seqFinal get_publisher_model all_models,
      seqFinal_reachable get_publisher_model all_models hcap,
      seqFinal_terminal get_publisher_model all_models⟩

theorem C8_concurrency_bound_witness :
    (seqFinal scenario_probe scenario_models).inflight.length ≤ max_workers :=
  C8_concurrency_bound.2.1 scenario_probe scenario_models
    (seqFinal scenario_probe scenario_models)
    (seqFinal_reachable scenario_probe scenario_models (by decide))

/-- C9: Implicit default region.  With neither `--region` nor the
`REGION` environment variable set, `main` resolves the region to
`us-central1`, so the run takes the fast path: zero probes are issued and
the full discovery catalog is emitted (header plus one line per model
when non-empty). -/
theorem C9_default_region :
    resolve_region none none = "us-central1"
    ∧ (∀ (arg_project : Option String) (arg_publisher : String)
        (env_project : Option String) (project_id : String)
        (list_publisher_models : String → Except DiscoveryError (List PublisherModel))
        (get_publisher_model : String → Except ProbeError Unit)
        (all_models : List PublisherModel),
        get_project_id arg_project env_project = Except.ok project_id →
        list_publisher_models ("publishers/" ++ arg_publisher) = Except.ok all_models →
        run_main arg_project none arg_publisher env_project none
          list_publisher_models get_publisher_model
          = { exitCode := none,
              output :=
                if all_models = [] then []
                else ("# Models available in us-central1 for publisher '"
                    ++ arg_publisher ++ "'")
                  :: all_models.map (fun m => "- " ++ m.name ++ ":predict"),
              discoveryCalls := ["publishers/" ++ arg_publisher],
              probeCalls := [] }) := by
  refine ⟨rfl, ?_⟩
  intro arg_project arg_publisher env_project project_id list_publisher_models
    get_publisher_model all_models hproj hlist
  simp [run_main, hproj, resolve_region, fetch_models, hlist]

theorem C9_default_region_witness :
    run_main (some "proj") none "google" none none scenario_discovery scenario_probe
      = { exitCode := none,
          output :=
            ["# Models available in us-central1 for publisher 'google'",
             "- publishers/google/models/a:predict",
             "- publishers/google/models/b:predict",
             "- publishers/google/models/c:predict"],
          discoveryCalls := ["publishers/google"], probeCalls := [] } := by
  have h := C9_default_region.2 (some "proj") "google" none "proj"
    scenario_discovery scenario_probe scenario_models rfl rfl
  simpa [scenario_models] using h

/-- C10: Implicit configuration precedence.  A non-empty `--project`
argument is returned unchanged whatever the environment variable; with
the argument absent, a non-empty `GOOGLE_CLOUD_PROJECT` is returned; with
both absent the run exits with code 1 before issuing any network call. -/
theorem C10_config_precedence :
    (∀ (s : String) (env_project : Option String), s ≠ "" →
        get_project_id (some s) env_project = Except.ok s)
    ∧ (∀ e : String, e ≠ "" → get_project_id none (some e) = Except.ok e)
    ∧ get_project_id none none = Except.error 1
    ∧ (∀ (arg_region : Option String) (arg_publisher : String)
        (env_region : Option String)
        (list_publisher_models : String → Except DiscoveryError (List PublisherModel))
        (get_publisher_model : String → Except ProbeError Unit),
        run_main none arg_region arg_publisher none env_region
          list_publisher_models get_publisher_model
          = { exitCode := some 1, output := [], discoveryCalls := [], probeCalls := [] }) := by
  refine ⟨?_, ?_, rfl, ?_⟩
  · intro s env_project hs
    simp [get_project_id, hs]
  · intro e he
    simp [get_project_id, he]
  · intro arg_region arg_publisher env_region list_publisher_models get_publisher_model
    simp [run_main, get_project_id]

theorem C10_config_precedence_witness :
    get_project_id (some "cli-project") (some "env-project") = Except.ok "cli-project"
    ∧ run_main none (some "europe-west4") "google" none none
        scenario_discovery scenario_probe
      = { exitCode := some 1, output := [], discoveryCalls := [], probeCalls := [] } :=
  ⟨C10_config_precedence.1 "cli-project" (some "env-project") (by decide),
   C10_config_precedence.2.2.2 (some "europe-west4") "google" none
     scenario_discovery scenario_probe⟩
